import Mathlib

/-!
# FraudGuard: a shallow embedding of `main.go`

The Go program is a single webhook handler: it parses a chat update, asks a
language model for a risk assessment (`analyzeText`), optionally transcribes a
voice message first (`transcribeVoice`), and posts a formatted reply
(`sendResultToTG`, `riskBar`, `truncate`, `sendTG`).

Conventions of the embedding.

* A Go `string` is an immutable byte sequence: `GoString := List UInt8`.
  `len(s)` is `s.length`, `s[:n]` takes bytes, and source literals are written
  as Lean string literals and encoded to UTF-8 with `goStr`.
* A Go `int` / `int64` is an `Int`.  No arithmetic in the program can
  overflow (the only operations are comparisons, `r / 10` and `10 - blocks`
  on a clamped value), so the results hold in particular for every 64-bit value.
* A Go panic is `none` in an `Option`.
* Calls that leave the process (HTTP, the model client, the file system) and
  the library routines whose tables are not part of the program
  (`json.Unmarshal`, `strings.TrimSpace`, the non-ASCII branch of
  `strings.ToUpper`) are fields of a `World`; every effect the handler performs
  is recorded, in order, as an `Event`.
-/

namespace FraudGuard

/-! ## Go strings -/

/-- A Go string: a sequence of bytes. -/
abbrev GoString := List UInt8

/-- UTF-8 encoding of a source literal. -/
def goStr (s : String) : GoString := s.data.flatMap String.utf8EncodeChar

/-- Decimal rendering of an integer, as produced by the verb `%d` and by
`strconv.FormatInt(_, 10)`: a leading `-` for negative values, no padding. -/
def formatInt (i : Int) : GoString := goStr (toString i)

/-- Model of `strings.Repeat(s, count)`: panics (`none`) on a negative count. -/
def stringsRepeat (s : GoString) (count : Int) : Option GoString :=
  if count < 0 then none else some (List.replicate count.toNat s).flatten

/-- Model of `strings.Join(elems, sep)`. -/
def stringsJoin : List GoString → GoString → GoString
  | [], _ => []
  | [a], _ => a
  | a :: b :: rest, sep => a ++ sep ++ stringsJoin (b :: rest) sep

/-- Model of `strings.ToUpper(s)`.  For an all-ASCII string Go maps the bytes `a`..`z`
to `A`..`Z` and leaves the rest; otherwise it maps `unicode.ToUpper` over the
runes, which is the parameter `unicodeUpper`. -/
def stringsToUpper (unicodeUpper : GoString → GoString) (s : GoString) : GoString :=
  if s.all (fun c => c < 0x80) then
    if s.any (fun c => 0x61 ≤ c && c ≤ 0x7a) then
      s.map (fun c => if 0x61 ≤ c && c ≤ 0x7a then c - 0x20 else c)
    else s
  else unicodeUpper s

/-- Model of the slice expression `s[:n]`: panics (`none`) unless `0 ≤ n ≤ len(s)`. -/
def sliceTo (s : GoString) (n : Int) : Option GoString :=
  if 0 ≤ n ∧ n ≤ (s.length : Int) then some (s.take n.toNat) else none

/-- An argument of `fmt.Sprintf`. -/
inductive FmtArg where
  | str (s : GoString)
  | int (i : Int)

/-- Model of `fmt.Sprintf` for the verbs the program uses: `%s` with a string
argument, `%d` with an integer argument and the escape `%%`.  Every other use
(another verb, an argument of the wrong kind, a missing or a surplus argument,
a trailing `%`) is outside the modelled fragment and yields `none`. -/
def sprintf : GoString → List FmtArg → Option GoString
  | [], args => if args.isEmpty then some [] else none
  | c :: rest, args =>
    if c ≠ 0x25 then (sprintf rest args).map (fun t => c :: t)
    else
      match rest with
      | [] => none
      | v :: rest' =>
        if v = 0x25 then (sprintf rest' args).map (fun t => 0x25 :: t)
        else if v = 0x73 then
          match args with
          | FmtArg.str s :: args' => (sprintf rest' args').map (fun t => s ++ t)
          | _ => none
        else if v = 0x64 then
          match args with
          | FmtArg.int i :: args' => (sprintf rest' args').map (fun t => formatInt i ++ t)
          | _ => none
        else none

/-! ## `riskBar` and `truncate` -/

/-- The number of filled cells computed by `riskBar`:
`if r < 0 { r = 0 }; if r > 100 { r = 100 }; blocks := r / 10`
(Go's `/` truncates toward zero). -/
def riskBarBlocks (r : Int) : Int :=
  let r := if r < 0 then 0 else r
  let r := if r > 100 then 100 else r
  r.tdiv 10

/-- Embedding of `riskBar`. -/
def riskBar (r : Int) : Option GoString := do
  let blocks := riskBarBlocks r
  let full ← stringsRepeat (goStr "█") blocks
  let empty ← stringsRepeat (goStr "░") (10 - blocks)
  pure (goStr "│" ++ full ++ empty ++ goStr "│")

/-- Embedding of `truncate`. -/
def truncate (s : GoString) (n : Int) : Option GoString :=
  if (s.length : Int) ≤ n then some s
  else (sliceTo s n).map (fun t => t ++ goStr "…")

/-! ## Data model -/

/-- The Go `error` values that occur are only tested against `nil`; an error is
represented by its message. -/
abbrev GoError := GoString

/-- The field `Message.Voice` of `TGUpdate`. -/
structure TGVoice where
  FileID : GoString
deriving DecidableEq

/-- The field `Message.Chat` of `TGUpdate`. -/
structure TGChat where
  ID : Int
deriving DecidableEq

/-- The anonymous struct behind `TGUpdate.Message`. -/
structure TGMessage where
  MessageID : Int
  Text : GoString
  Chat : TGChat
  Voice : Option TGVoice
deriving DecidableEq

/-- Embedding of `TGUpdate`; a nil pointer is `none`. -/
structure TGUpdate where
  Message : Option TGMessage
deriving DecidableEq

/-- Embedding of `RiskResult`. -/
structure RiskResult where
  Risk : Int
  Reasons : List GoString
  Recommendation : GoString
  Level : GoString
deriving DecidableEq

/-- The part of `openai.ChatCompletionMessage` the program uses. -/
structure ChatCompletionMessage where
  Role : GoString
  Content : GoString
deriving DecidableEq

/-- The part of `openai.ChatCompletionRequest` the program fills in.  The
temperature is kept as the text of the source literal. -/
structure ChatCompletionRequest where
  Model : GoString
  Messages : List ChatCompletionMessage
  Temperature : GoString
deriving DecidableEq

/-- One entry of `resp.Choices`. -/
structure ChatCompletionChoice where
  Message : ChatCompletionMessage
deriving DecidableEq

/-- The part of `openai.ChatCompletionResponse` the program reads. -/
structure ChatCompletionResponse where
  Choices : List ChatCompletionChoice
deriving DecidableEq

/-- The part of `openai.AudioRequest` the program fills in. -/
structure AudioRequest where
  Model : GoString
  FilePath : GoString
deriving DecidableEq

/-- The local struct `f` decoded from Telegram's `getFile` reply. -/
structure TGFile where
  OK : Bool
  FilePath : GoString
deriving DecidableEq

/-- Everything outside the program.  A Go call returning `(value, error)` is a
function into a pair whose second component is `none` for a nil error. -/
structure World where
  /-- The call `c.BodyParser(&upd)` on the request body. -/
  BodyParser : GoString → TGUpdate × Option GoError
  /-- The call `oc.CreateChatCompletion(ctx, req)`. -/
  CreateChatCompletion : ChatCompletionRequest → ChatCompletionResponse × Option GoError
  /-- The call `json.Unmarshal([]byte(content), &out)` on a zero `RiskResult`: the
  value left in `out` (possibly partially filled) and the error. -/
  jsonUnmarshal : GoString → RiskResult × Option GoError
  /-- The call `http.Get(url)`: the response body and the error. -/
  httpGet : GoString → GoString × Option GoError
  /-- The call `json.NewDecoder(resp.Body).Decode(&f)`. -/
  jsonDecode : GoString → TGFile × Option GoError
  /-- The call `os.Create(name)`. -/
  osCreate : GoString → Option GoError
  /-- The call `io.Copy(out, body)` into the named file. -/
  ioCopy : GoString → GoString → Option GoError
  /-- The call `oc.CreateTranscription(ctx, req)`: the field `Text` of the result and
  the error. -/
  CreateTranscription : AudioRequest → GoString × Option GoError
  /-- The function `strings.TrimSpace`. -/
  TrimSpace : GoString → GoString
  /-- The function `strings.Map(unicode.ToUpper, _)`, the non-ASCII branch of
  `strings.ToUpper`. -/
  unicodeUpper : GoString → GoString

/-- The effects of one request, in program order. -/
inductive Event where
  | chatCompletion (req : ChatCompletionRequest)
  | httpGet (url : GoString)
  | bodyClose (url : GoString)
  | osCreate (name : GoString)
  | ioCopy (name : GoString) (data : GoString)
  | fileClose (name : GoString)
  | osRemove (name : GoString)
  | transcription (req : AudioRequest)
  | httpPost (url : GoString) (contentType : GoString) (payload : List (GoString × GoString))
deriving DecidableEq

/-- The event is a call of the language model for a risk analysis. -/
def Event.isChatCompletion : Event → Bool
  | Event.chatCompletion _ => true
  | _ => false

/-- The event is an outbound POST (the only way the program sends a chat message). -/
def Event.isPost : Event → Bool
  | Event.httpPost _ _ _ => true
  | _ => false

/-! ## `analyzeText` -/

/-- The local `prompt` of `analyzeText`. -/
def analyzePrompt (text : GoString) : GoString :=
  goStr "\nТы эксперт по кибербезопасности. Проанализируй сообщение на признаки онлайн-мошенничества (фишинг, социнжиниринг, давление).\nОцени риск 0-100 (чем выше, тем опаснее). Верни СТРОГО валидный JSON:\n\x7b\n \"risk\": <0-100>,\n \"level\": \"<low|medium|high>\",\n \"reasons\": [\"...\",\"...\"],\n \"recommendation\": \"...\"\n\x7d\nПовышай риск при наличии: срочности/давления/угроз/перевода денег/\"код из SMS\"/лжебанка/подозрительных ссылок.\nСообщение: \"\"\""
    ++ text ++ goStr "\"\"\""

/-- The local `req` of `analyzeText`. -/
def analyzeRequest (text : GoString) : ChatCompletionRequest where
  Model := goStr "gpt-4o-mini"
  Messages :=
    [ { Role := goStr "system", Content := goStr "Отвечай только валидным JSON без пояснений." },
      { Role := goStr "user", Content := analyzePrompt text } ]
  Temperature := goStr "0.1"

/-- Embedding of `analyzeText`: the returned assessment and the effects.  The
index expression `resp.Choices[0]` panics (`none`) on an empty slice. -/
def analyzeText (W : World) (text : GoString) : Option (RiskResult × List Event) :=
  let req := analyzeRequest text
  let (resp, err) := W.CreateChatCompletion req
  if err ≠ none ∨ resp.Choices.length = 0 then
    some ({ Risk := 50, Level := goStr "medium", Reasons := [goStr "Ошибка анализа"],
            Recommendation := goStr "Перепроверьте источник сообщения." },
          [Event.chatCompletion req])
  else
    match resp.Choices[0]? with
    | none => none
    | some choice =>
      let (out, uerr) := W.jsonUnmarshal choice.Message.Content
      let out : RiskResult :=
        if uerr ≠ none then
          { Risk := 60, Level := goStr "medium", Reasons := [goStr "Нестрогий формат ответа ИИ"],
            Recommendation := goStr "Будьте осторожны." }
        else out
      let out := if out.Risk < 0 then { out with Risk := 0 } else out
      let out := if out.Risk > 100 then { out with Risk := 100 } else out
      let out :=
        if out.Level = [] then
          if out.Risk ≥ 80 then { out with Level := goStr "high" }
          else if out.Risk ≥ 40 then { out with Level := goStr "medium" }
          else { out with Level := goStr "low" }
        else out
      some (out, [Event.chatCompletion req])

/-! ## `transcribeVoice` -/

/-- Embedding of `transcribeVoice`: the returned pair `(string, error)` and the
effects, the deferred calls last and in reverse order of their `defer`. -/
def transcribeVoice (W : World) (tgToken fileID : GoString) :
    Option ((GoString × Option GoError) × List Event) := do
  let fileInfoURL ←
    sprintf (goStr "https://api.telegram.org/bot%s/getFile?file_id=%s")
      [FmtArg.str tgToken, FmtArg.str fileID]
  let (body, err) := W.httpGet fileInfoURL
  if err ≠ none then
    pure (([], err), [Event.httpGet fileInfoURL])
  else
    let (f, derr) := W.jsonDecode body
    if derr ≠ none ∨ !f.OK then
      pure (([], some (goStr "tg getFile failed")),
        [Event.httpGet fileInfoURL, Event.bodyClose fileInfoURL])
    else do
      let fileURL ←
        sprintf (goStr "https://api.telegram.org/file/bot%s/%s")
          [FmtArg.str tgToken, FmtArg.str f.FilePath]
      let (audio, aerr) := W.httpGet fileURL
      if aerr ≠ none then
        pure (([], aerr),
          [Event.httpGet fileInfoURL, Event.httpGet fileURL, Event.bodyClose fileInfoURL])
      else
        let tmp := goStr "voice.ogg"
        let cerr := W.osCreate tmp
        if cerr ≠ none then
          pure (([], cerr),
            [Event.httpGet fileInfoURL, Event.httpGet fileURL, Event.osCreate tmp,
             Event.bodyClose fileURL, Event.bodyClose fileInfoURL])
        else
          let werr := W.ioCopy tmp audio
          if werr ≠ none then
            pure (([], werr),
              [Event.httpGet fileInfoURL, Event.httpGet fileURL, Event.osCreate tmp,
               Event.ioCopy tmp audio, Event.fileClose tmp, Event.osRemove tmp,
               Event.bodyClose fileURL, Event.bodyClose fileInfoURL])
          else
            let tr : AudioRequest := { Model := goStr "whisper-1", FilePath := tmp }
            let (tresText, terr) := W.CreateTranscription tr
            if terr ≠ none then
              pure (([], terr),
                [Event.httpGet fileInfoURL, Event.httpGet fileURL, Event.osCreate tmp,
                 Event.ioCopy tmp audio, Event.transcription tr, Event.fileClose tmp,
                 Event.osRemove tmp, Event.bodyClose fileURL, Event.bodyClose fileInfoURL])
            else
              pure ((W.TrimSpace tresText, none),
                [Event.httpGet fileInfoURL, Event.httpGet fileURL, Event.osCreate tmp,
                 Event.ioCopy tmp audio, Event.transcription tr, Event.fileClose tmp,
                 Event.osRemove tmp, Event.bodyClose fileURL, Event.bodyClose fileInfoURL])

/-! ## Sending -/

/-- Embedding of `sendTG`: one POST of the payload map (listed in the order of the
source) to the `sendMessage` endpoint; the outcome of the POST is ignored. -/
def sendTG (token : GoString) (chatID : Int) (text : GoString) : Option (List Event) := do
  let url ← sprintf (goStr "https://api.telegram.org/bot%s/sendMessage") [FmtArg.str token]
  pure [Event.httpPost url (goStr "application/json")
    [(goStr "chat_id", formatInt chatID), (goStr "text", text),
     (goStr "parse_mode", goStr "Markdown")]]

/-- The local `msg` of `sendResultToTG`. -/
def sendResultToTG_msg (unicodeUpper : GoString → GoString) (original : GoString)
    (r : RiskResult) : Option GoString := do
  let bar ← riskBar r.Risk
  let reasons :=
    if r.Reasons.length > 0 then goStr "- " ++ stringsJoin r.Reasons (goStr "\n- ")
    else goStr "-"
  let shown ← truncate original 800
  sprintf
    (goStr "🛡️ *FraudGuard AI*\n\n*Оригинал:*\n`%s`\n\n*Риск:* %d%% %s\n*Уровень:* %s\n*Причины:*\n%s\n\n*Совет:* %s")
    [FmtArg.str shown, FmtArg.int r.Risk, FmtArg.str bar,
     FmtArg.str (stringsToUpper unicodeUpper r.Level), FmtArg.str reasons,
     FmtArg.str r.Recommendation]

/-- Embedding of `sendResultToTG`. -/
def sendResultToTG (W : World) (tgToken : GoString) (chatID : Int) (original : GoString)
    (r : RiskResult) : Option (List Event) := do
  let msg ← sendResultToTG_msg W.unicodeUpper original r
  sendTG tgToken chatID msg

/-! ## The webhook handler -/

/-- Embedding of the handler registered by `main` for `POST /webhook`: the HTTP
status passed to `c.SendStatus` and the effects, or `none` for a panic. -/
def webhook (W : World) (tgToken : GoString) (body : GoString) : Option (Nat × List Event) :=
  let (upd, err) := W.BodyParser body
  if err ≠ none then some (200, [])
  else
    match upd.Message with
    | none => some (200, [])
    | some m =>
      let chatID := m.Chat.ID
      if m.Text ≠ [] then do
        let text := m.Text
        let (res, t1) ← analyzeText W text
        let t2 ← sendResultToTG W tgToken chatID text res
        pure (200, t1 ++ t2)
      else
        match m.Voice with
        | some voice => do
          let ((text, verr), t0) ← transcribeVoice W tgToken voice.FileID
          if verr ≠ none ∨ W.TrimSpace text = [] then do
            let t1 ← sendTG tgToken chatID
              (goStr "Не удалось распознать голосовое. Пришлите текст или другое аудио.")
            pure (200, t0 ++ t1)
          else do
            let (res, t1) ← analyzeText W text
            let t2 ← sendResultToTG W tgToken chatID text res
            pure (200, t0 ++ t1 ++ t2)
        | none => do
          let t1 ← sendTG tgToken chatID
            (goStr "Пришлите текст или голосовое сообщение для проверки.")
          pure (200, t1)

/-! ## The specification's side

The definitions below follow the words of the specification; the theorems
compare them with the embedding above. -/

/-- Clamping into `[0, 100]`: `0` below the range, `100` above it. -/
def specClamp (s : Int) : Int := if s < 0 then 0 else if s > 100 then 100 else s

/-- The tier thresholds: at least 80 is high, at least 40 is medium, else low. -/
def specTier (s : Int) : GoString :=
  if s ≥ 80 then goStr "high" else if s ≥ 40 then goStr "medium" else goStr "low"

/-- The three severity tiers. -/
def specTiers : List GoString := [goStr "low", goStr "medium", goStr "high"]

/-- The fallback assessment for a failed call or a reply without candidates. -/
def callFallback : RiskResult where
  Risk := 50
  Level := goStr "medium"
  Reasons := [goStr "Ошибка анализа"]
  Recommendation := goStr "Перепроверьте источник сообщения."

/-- The fallback assessment for a reply that is not well-formed. -/
def formatFallback : RiskResult where
  Risk := 60
  Level := goStr "medium"
  Reasons := [goStr "Нестрогий формат ответа ИИ"]
  Recommendation := goStr "Будьте осторожны."

/-- The apology sent when a voice message cannot be transcribed. -/
def voiceApology : GoString :=
  goStr "Не удалось распознать голосовое. Пришлите текст или другое аудио."

/-- The outbound chat message carrying `text` to chat `chatID`. -/
def outboundMessage (token : GoString) (chatID : Int) (text : GoString) : Event :=
  Event.httpPost (goStr "https://api.telegram.org/bot" ++ token ++ goStr "/sendMessage")
    (goStr "application/json")
    [(goStr "chat_id", formatInt chatID), (goStr "text", text),
     (goStr "parse_mode", goStr "Markdown")]

/-- The number of filled cells of the bar: `floor(clamp(r, 0, 100) / 10)`. -/
def specFilledCells (r : Int) : Nat := (max 0 (min r 100) / 10).toNat

/-- The bar with `k` filled cells: delimiter, `k` filled cells, `10 - k` empty
cells, delimiter. -/
def specBar (k : Nat) : List Char :=
  '│' :: (List.replicate k '█' ++ List.replicate (10 - k) '░' ++ ['│'])

/-- Truncation to `n` bytes: the string itself when it is short enough, else its
first `n` bytes followed by the ellipsis. -/
def specTruncate (s : GoString) (n : Nat) : GoString :=
  if s.length ≤ n then s else s.take n ++ goStr "…"

/-- The reasons block: each reason on its own line behind `- `, in order; the
single line `-` for an empty list. -/
def specReasons (reasons : List GoString) : GoString :=
  if reasons = [] then goStr "-"
  else (reasons.map (fun x => goStr "- " ++ x)).intersperse (goStr "\n") |>.flatten

/-- The message template with the tier slot filled by `tier`. -/
def specTemplate (original : GoString) (r : RiskResult) (tier : GoString) : GoString :=
  goStr "🛡️ *FraudGuard AI*\n\n*Оригинал:*\n`" ++ specTruncate original 800
    ++ goStr "`\n\n*Риск:* " ++ formatInt r.Risk ++ goStr "% "
    ++ goStr (String.mk (specBar (specFilledCells r.Risk)))
    ++ goStr "\n*Уровень:* " ++ tier
    ++ goStr "\n*Причины:*\n" ++ specReasons r.Reasons
    ++ goStr "\n\n*Совет:* " ++ r.Recommendation

/-- The normalisation of a decoded assessment: the score clamped, an empty tier
derived from the clamped score, every other field kept. -/
def specNormalize (out : RiskResult) : RiskResult :=
  { out with
    Risk := specClamp out.Risk
    Level := if out.Level = [] then specTier (specClamp out.Risk) else out.Level }

/-! ## Sample worlds -/

/-- Whitespace bytes of ASCII, as `strings.TrimSpace` classifies them. -/
def asciiSpace (c : UInt8) : Bool :=
  c = 0x09 || c = 0x0a || c = 0x0b || c = 0x0c || c = 0x0d || c = 0x20

/-- The behaviour of `strings.TrimSpace` on ASCII text. -/
def asciiTrimSpace (s : GoString) : GoString :=
  ((s.dropWhile asciiSpace).reverse.dropWhile asciiSpace).reverse

/-- The candidate wrapping a reply `content`. -/
def sampleChoice (content : GoString) : ChatCompletionChoice where
  Message := { Role := goStr "assistant", Content := content }

/-- A world in which every external call succeeds: the request body parses to
`upd`, the model answers with one candidate `content` which decodes as `dec`,
and the transcription service returns `transcript`. -/
def scriptedWorld (upd : TGUpdate) (content : GoString) (dec : RiskResult × Option GoError)
    (transcript : GoString × Option GoError) : World where
  BodyParser _ := (upd, none)
  CreateChatCompletion _ := ({ Choices := [sampleChoice content] }, none)
  jsonUnmarshal _ := dec
  httpGet _ := ([], none)
  jsonDecode _ := ({ OK := true, FilePath := goStr "voice/file_0.oga" }, none)
  osCreate _ := none
  ioCopy _ _ := none
  CreateTranscription _ := transcript
  TrimSpace := asciiTrimSpace
  unicodeUpper s := s

/-- A world in which the model call fails. -/
def offlineWorld (upd : TGUpdate) : World where
  BodyParser _ := (upd, none)
  CreateChatCompletion _ := ({ Choices := [] }, some (goStr "connection refused"))
  jsonUnmarshal _ := ({ Risk := 0, Reasons := [], Recommendation := [], Level := [] }, none)
  httpGet _ := ([], some (goStr "connection refused"))
  jsonDecode _ := ({ OK := false, FilePath := [] }, some (goStr "EOF"))
  osCreate _ := none
  ioCopy _ _ := none
  CreateTranscription _ := ([], some (goStr "connection refused"))
  TrimSpace := asciiTrimSpace
  unicodeUpper s := s

/-- A text-only update. -/
def textUpdate (chatID : Int) (text : GoString) : TGUpdate where
  Message := some { MessageID := 1, Text := text, Chat := { ID := chatID }, Voice := none }

/-- A voice-only update. -/
def voiceUpdate (chatID : Int) (fileID : GoString) : TGUpdate where
  Message := some { MessageID := 1, Text := [], Chat := { ID := chatID },
                    Voice := some { FileID := fileID } }

/-- A message text used in the examples. -/
def sampleText : GoString := goStr "Срочно переведите деньги на безопасный счёт"

/-- A reply of the model with a score above the range and no tier. -/
def overshootContent : GoString :=
  goStr "\x7b\"risk\": 250, \"reasons\": [\"давление\"], \"recommendation\": \"Не переводите деньги.\"\x7d"

/-- The value `overshootContent` decodes to. -/
def overshootReply : RiskResult where
  Risk := 250
  Reasons := [goStr "давление"]
  Recommendation := goStr "Не переводите деньги."
  Level := []

/-- A reply of the model with a tier outside the three levels. -/
def criticalContent : GoString :=
  goStr "\x7b\"risk\": 95, \"level\": \"critical\", \"reasons\": [\"давление\"], \"recommendation\": \"Не переводите деньги.\"\x7d"

/-- The value `criticalContent` decodes to. -/
def criticalReply : RiskResult where
  Risk := 95
  Reasons := [goStr "давление"]
  Recommendation := goStr "Не переводите деньги."
  Level := goStr "critical"

/-- The zero value of `RiskResult`. -/
def zeroRiskResult : RiskResult where
  Risk := 0
  Reasons := []
  Recommendation := []
  Level := []

/-! ## Lemmas on the library models -/

theorem sprintf_lit (l rest : GoString) (args : List FmtArg) (h : ∀ c ∈ l, c ≠ 0x25) :
    sprintf (l ++ rest) args = (sprintf rest args).map (fun t => l ++ t) := by
  induction l with
  | nil => simp
  | cons c l ih =>
    have hc : c ≠ 0x25 := h c (List.mem_cons_self _ _)
    have hl : ∀ d ∈ l, d ≠ 0x25 := fun d hd => h d (List.mem_cons_of_mem _ hd)
    rw [List.cons_append, sprintf.eq_def]
    simp only [hc, ne_eq, not_false_eq_true, if_true, ih hl]
    cases sprintf rest args <;> simp

theorem sprintf_str (s rest : GoString) (args : List FmtArg) :
    sprintf (0x25 :: 0x73 :: rest) (FmtArg.str s :: args)
      = (sprintf rest args).map (fun t => s ++ t) := by
  rw [sprintf.eq_def]; simp

theorem sprintf_int (i : Int) (rest : GoString) (args : List FmtArg) :
    sprintf (0x25 :: 0x64 :: rest) (FmtArg.int i :: args)
      = (sprintf rest args).map (fun t => formatInt i ++ t) := by
  rw [sprintf.eq_def]; simp

theorem sprintf_percent (rest : GoString) (args : List FmtArg) :
    sprintf (0x25 :: 0x25 :: rest) args = (sprintf rest args).map (fun t => 0x25 :: t) := by
  rw [sprintf.eq_def]; simp

theorem sprintf_nil : sprintf [] [] = some [] := by
  rw [sprintf]; rfl

theorem sprintf_sendMessage (token : GoString) :
    sprintf (goStr "https://api.telegram.org/bot%s/sendMessage") [FmtArg.str token]
      = some (goStr "https://api.telegram.org/bot" ++ token ++ goStr "/sendMessage") := by
  have h : goStr "https://api.telegram.org/bot%s/sendMessage"
      = goStr "https://api.telegram.org/bot" ++ 0x25 :: 0x73 :: (goStr "/sendMessage" ++ []) := by
    decide
  rw [h, sprintf_lit _ _ _ (by decide), sprintf_str, sprintf_lit _ _ _ (by decide), sprintf_nil]
  simp

theorem sprintf_getFile (token fileID : GoString) :
    ∃ url, sprintf (goStr "https://api.telegram.org/bot%s/getFile?file_id=%s")
      [FmtArg.str token, FmtArg.str fileID] = some url := by
  have h : goStr "https://api.telegram.org/bot%s/getFile?file_id=%s"
      = goStr "https://api.telegram.org/bot" ++ 0x25 :: 0x73 ::
          (goStr "/getFile?file_id=" ++ 0x25 :: 0x73 :: []) := by
    decide
  rw [h, sprintf_lit _ _ _ (by decide), sprintf_str, sprintf_lit _ _ _ (by decide), sprintf_str,
    sprintf_nil]
  exact ⟨_, rfl⟩

theorem sprintf_file (token path : GoString) :
    ∃ url, sprintf (goStr "https://api.telegram.org/file/bot%s/%s")
      [FmtArg.str token, FmtArg.str path] = some url := by
  have h : goStr "https://api.telegram.org/file/bot%s/%s"
      = goStr "https://api.telegram.org/file/bot" ++ 0x25 :: 0x73 ::
          (goStr "/" ++ 0x25 :: 0x73 :: []) := by
    decide
  rw [h, sprintf_lit _ _ _ (by decide), sprintf_str, sprintf_lit _ _ _ (by decide), sprintf_str,
    sprintf_nil]
  exact ⟨_, rfl⟩

theorem sprintf_result (a b c d e : GoString) (i : Int) :
    sprintf
      (goStr "🛡️ *FraudGuard AI*\n\n*Оригинал:*\n`%s`\n\n*Риск:* %d%% %s\n*Уровень:* %s\n*Причины:*\n%s\n\n*Совет:* %s")
      [FmtArg.str a, FmtArg.int i, FmtArg.str b, FmtArg.str c, FmtArg.str d, FmtArg.str e]
    = some (goStr "🛡️ *FraudGuard AI*\n\n*Оригинал:*\n`" ++ a
        ++ goStr "`\n\n*Риск:* " ++ formatInt i ++ goStr "% " ++ b
        ++ goStr "\n*Уровень:* " ++ c
        ++ goStr "\n*Причины:*\n" ++ d
        ++ goStr "\n\n*Совет:* " ++ e) := by
  have h : goStr "🛡️ *FraudGuard AI*\n\n*Оригинал:*\n`%s`\n\n*Риск:* %d%% %s\n*Уровень:* %s\n*Причины:*\n%s\n\n*Совет:* %s"
      = goStr "🛡️ *FraudGuard AI*\n\n*Оригинал:*\n`" ++ 0x25 :: 0x73 ::
          (goStr "`\n\n*Риск:* " ++ 0x25 :: 0x64 :: 0x25 :: 0x25 ::
            (goStr " " ++ 0x25 :: 0x73 ::
              (goStr "\n*Уровень:* " ++ 0x25 :: 0x73 ::
                (goStr "\n*Причины:*\n" ++ 0x25 :: 0x73 ::
                  (goStr "\n\n*Совет:* " ++ 0x25 :: 0x73 :: []))))) := by
    decide
  have hp : goStr "% " = 0x25 :: goStr " " := by decide
  rw [h, sprintf_lit _ _ _ (by decide), sprintf_str, sprintf_lit _ _ _ (by decide), sprintf_int,
    sprintf_percent, sprintf_lit _ _ _ (by decide), sprintf_str, sprintf_lit _ _ _ (by decide),
    sprintf_str, sprintf_lit _ _ _ (by decide), sprintf_str, sprintf_lit _ _ _ (by decide),
    sprintf_str, sprintf_nil, hp]
  simp

/-! ## `riskBar` -/

theorem riskBarBlocks_eq (r : Int) :
    riskBarBlocks r = (specFilledCells r : Int) ∧ specFilledCells r ≤ 10 := by
  unfold riskBarBlocks specFilledCells
  by_cases h0 : r < 0
  · have : max 0 (min r 100) = 0 := by omega
    simp [h0, this]
  · by_cases h1 : r > 100
    · have : max 0 (min r 100) = 100 := by omega
      simp [h0, h1, this]
      decide
    · have : max 0 (min r 100) = r := by omega
      simp only [h0, h1, this, if_false]
      rw [Int.tdiv_eq_ediv (by omega) (by omega)]
      omega

theorem riskBar_of_blocks (r : Int) (k : Nat) (hk : k ≤ 10) (h : riskBarBlocks r = (k : Int)) :
    riskBar r = some (goStr (String.mk (specBar k))) := by
  unfold riskBar
  simp only [h]
  interval_cases k <;> rfl

theorem riskBar_eq (r : Int) :
    riskBar r = some (goStr (String.mk (specBar (specFilledCells r)))) :=
  riskBar_of_blocks r _ (riskBarBlocks_eq r).2 (riskBarBlocks_eq r).1

theorem specFilledCells_mono {r r' : Int} (h : r ≤ r') :
    specFilledCells r ≤ specFilledCells r' := by
  unfold specFilledCells
  omega

theorem specBar_length (k : Nat) (hk : k ≤ 10) : (specBar k).length = 12 := by
  simp [specBar]
  omega

/-! ## `truncate` -/

theorem truncate_eq (s : GoString) (n : Int) (hn : 0 ≤ n) :
    truncate s n = some (specTruncate s n.toNat) := by
  unfold truncate specTruncate sliceTo
  by_cases h : (s.length : Int) ≤ n
  · have h' : s.length ≤ n.toNat := by omega
    simp [h, h']
  · have h' : ¬ s.length ≤ n.toNat := by omega
    have h2 : n ≤ (s.length : Int) := by omega
    simp [h, h', hn, h2]

theorem specTruncate_length (s : GoString) (n : Nat) :
    (specTruncate s n).length ≤ n + 3 := by
  unfold specTruncate
  split
  · omega
  · have h3 : (goStr "…").length = 3 := by decide
    rw [List.length_append, List.length_take, h3]
    omega

/-! ## The message of `sendResultToTG` -/

theorem reasons_eq (rs : List GoString) :
    (if rs.length > 0 then goStr "- " ++ stringsJoin rs (goStr "\n- ") else goStr "-")
      = specReasons rs := by
  have hsep : goStr "\n- " = goStr "\n" ++ goStr "- " := by decide
  have key : ∀ (a : GoString) (rest : List GoString),
      goStr "- " ++ stringsJoin (a :: rest) (goStr "\n- ")
        = (((a :: rest).map (fun x => goStr "- " ++ x)).intersperse (goStr "\n")).flatten := by
    intro a rest
    induction rest generalizing a with
    | nil => simp [stringsJoin]
    | cons b rest ih =>
      have := ih b
      simp only [stringsJoin, List.map_cons, List.intersperse, List.flatten_cons] at this ⊢
      rw [← this, hsep]
      simp [List.append_assoc]
  cases rs with
  | nil => simp [specReasons]
  | cons a rest => simp [specReasons, key]

theorem sendResultToTG_msg_eq (up : GoString → GoString) (original : GoString) (r : RiskResult) :
    sendResultToTG_msg up original r
      = some (specTemplate original r (stringsToUpper up r.Level)) := by
  unfold sendResultToTG_msg
  rw [riskBar_eq, truncate_eq _ _ (by decide), reasons_eq]
  simp only [Option.bind_eq_bind, Option.some_bind, sprintf_result]
  rfl

theorem sendTG_eq (token : GoString) (chatID : Int) (text : GoString) :
    sendTG token chatID text = some [outboundMessage token chatID text] := by
  unfold sendTG
  rw [sprintf_sendMessage]
  rfl

theorem sendResultToTG_eq (W : World) (token : GoString) (chatID : Int) (original : GoString)
    (r : RiskResult) :
    sendResultToTG W token chatID original r
      = some [outboundMessage token chatID
          (specTemplate original r (stringsToUpper W.unicodeUpper r.Level))] := by
  unfold sendResultToTG
  rw [sendResultToTG_msg_eq, Option.bind_eq_bind, Option.some_bind, sendTG_eq]

/-! ## `analyzeText` -/

theorem analyzeText_failed (W : World) (text : GoString) (resp : ChatCompletionResponse)
    (err : Option GoError) (hcall : W.CreateChatCompletion (analyzeRequest text) = (resp, err))
    (hfail : err ≠ none ∨ resp.Choices = []) :
    analyzeText W text = some (callFallback, [Event.chatCompletion (analyzeRequest text)]) := by
  unfold analyzeText
  have hfail' : err ≠ none ∨ resp.Choices.length = 0 := by
    rcases hfail with h | h
    · exact Or.inl h
    · exact Or.inr (by simp [h])
  simp only [hcall, if_pos hfail']
  rfl

theorem analyzeText_replied (W : World) (text : GoString) (resp : ChatCompletionResponse)
    (choice : ChatCompletionChoice) (rest : List ChatCompletionChoice)
    (dec : RiskResult) (uerr : Option GoError)
    (hcall : W.CreateChatCompletion (analyzeRequest text) = (resp, none))
    (hchoices : resp.Choices = choice :: rest)
    (hdec : W.jsonUnmarshal choice.Message.Content = (dec, uerr)) :
    analyzeText W text
      = some (specNormalize (if uerr ≠ none then formatFallback else dec),
              [Event.chatCompletion (analyzeRequest text)]) := by
  have hm : goStr "medium" ≠ [] := by decide
  have hok : ¬ ((none : Option GoError) ≠ none ∨ (choice :: rest).length = 0) := by simp
  unfold analyzeText
  simp only [hcall, hchoices, if_neg hok, List.getElem?_cons_zero, hdec]
  cases uerr with
  | some e =>
    simp [specNormalize, formatFallback, specClamp, hm]
  | none =>
    obtain ⟨risk, reasons, recommendation, level⟩ := dec
    simp only [specNormalize, specClamp, specTier]
    by_cases h0 : risk < 0 <;> by_cases h1 : risk > 100 <;> by_cases hl : level = []
      <;> by_cases h80 : risk ≥ 80 <;> by_cases h40 : risk ≥ 40
      <;> first
        | omega
        | simp [h0, h1, hl, h80, h40]

theorem specNormalize_formatFallback : specNormalize formatFallback = formatFallback := by
  decide

theorem analyzeText_total (W : World) (text : GoString) :
    ∃ out, analyzeText W text = some (out, [Event.chatCompletion (analyzeRequest text)])
      ∧ (out = callFallback ∨ out = formatFallback
          ∨ ∃ resp choice rest dec,
              W.CreateChatCompletion (analyzeRequest text) = (resp, none)
              ∧ resp.Choices = choice :: rest
              ∧ W.jsonUnmarshal choice.Message.Content = (dec, none)
              ∧ out = specNormalize dec) := by
  rcases hcall : W.CreateChatCompletion (analyzeRequest text) with ⟨resp, err⟩
  cases err with
  | some e =>
    exact ⟨_, analyzeText_failed W text resp (some e) hcall (Or.inl (by simp)), Or.inl rfl⟩
  | none =>
    rcases hch : resp.Choices with _ | ⟨choice, rest⟩
    · exact ⟨_, analyzeText_failed W text resp none hcall (Or.inr hch), Or.inl rfl⟩
    · rcases hdec : W.jsonUnmarshal choice.Message.Content with ⟨dec, uerr⟩
      refine ⟨_, analyzeText_replied W text resp choice rest dec uerr hcall hch hdec, ?_⟩
      cases uerr with
      | some e => exact Or.inr (Or.inl (by simp [specNormalize_formatFallback]))
      | none => exact Or.inr (Or.inr ⟨resp, choice, rest, dec, rfl, hch, hdec, by simp⟩)

/-! ## `transcribeVoice` and the handler -/

theorem transcribeVoice_total (W : World) (tgToken fileID : GoString) :
    ∃ res tr, transcribeVoice W tgToken fileID = some (res, tr)
      ∧ ∀ e ∈ tr, e.isPost = false ∧ e.isChatCompletion = false := by
  obtain ⟨u1, h1⟩ := sprintf_getFile tgToken fileID
  obtain ⟨u2, h2⟩ := sprintf_file tgToken (W.jsonDecode (W.httpGet u1).1).1.FilePath
  unfold transcribeVoice
  simp only [h1, Option.bind_eq_bind, Option.some_bind]
  simp only [h2, Option.some_bind]
  split_ifs
  all_goals exact ⟨_, _, rfl, by simp [Event.isPost, Event.isChatCompletion]⟩

theorem webhook_voiceBranch (W : World) (tgToken body : GoString) (upd : TGUpdate) (m : TGMessage)
    (voice : TGVoice) (hparse : W.BodyParser body = (upd, none)) (hmsg : upd.Message = some m)
    (htext : m.Text = []) (hvoice : m.Voice = some voice) :
    webhook W tgToken body
      = (transcribeVoice W tgToken voice.FileID).bind (fun r =>
          if r.1.2 ≠ none ∨ W.TrimSpace r.1.1 = [] then
            some (200, r.2 ++ [outboundMessage tgToken m.Chat.ID voiceApology])
          else
            (analyzeText W r.1.1).bind (fun a =>
              (sendResultToTG W tgToken m.Chat.ID r.1.1 a.1).bind (fun t2 =>
                some (200, r.2 ++ a.2 ++ t2)))) := by
  unfold webhook
  simp only [hparse, hmsg, htext, hvoice]
  simp only [ne_eq, not_true_eq_false, if_false, sendTG_eq, Option.bind_eq_bind, Option.some_bind,
    Option.pure_def]
  rfl

/-! ## The claims about `analyzeText` -/

/-- C1: when the model's reply decodes, the score returned by `analyzeText` is the
decoded score clamped into `[0, 100]` (`0` below, `100` above, unchanged inside);
and for every outcome of the upstream call the returned score lies in `[0, 100]`. -/
theorem analyzeText_score_clamped (W : World) (text : GoString)
    (resp : ChatCompletionResponse) (choice : ChatCompletionChoice)
    (rest : List ChatCompletionChoice) (dec : RiskResult)
    (hcall : W.CreateChatCompletion (analyzeRequest text) = (resp, none))
    (hchoices : resp.Choices = choice :: rest)
    (hdec : W.jsonUnmarshal choice.Message.Content = (dec, none)) :
    (∃ out tr, analyzeText W text = some (out, tr) ∧ out.Risk = specClamp dec.Risk)
      ∧ ∀ (W' : World) (text' : GoString),
          ∃ out tr, analyzeText W' text' = some (out, tr) ∧ 0 ≤ out.Risk ∧ out.Risk ≤ 100 := by
  constructor
  · refine ⟨_, _, analyzeText_replied W text resp choice rest dec none hcall hchoices hdec, ?_⟩
    simp [specNormalize]
  · intro W' text'
    obtain ⟨out, hout, hcases⟩ := analyzeText_total W' text'
    refine ⟨out, _, hout, ?_⟩
    rcases hcases with h | h | ⟨_, _, _, d, _, _, _, h⟩
    · subst h; decide
    · subst h; decide
    · subst h
      simp only [specNormalize, specClamp]
      split_ifs <;> omega

/-- Witness of C1: a decoded score of 250 is returned as 100. -/
theorem analyzeText_score_clamped_witness :
    ∃ out tr,
      analyzeText (scriptedWorld (textUpdate 42 sampleText) overshootContent
        (overshootReply, none) ([], none)) sampleText = some (out, tr)
      ∧ out.Risk = specClamp 250 :=
  (analyzeText_score_clamped
    (scriptedWorld (textUpdate 42 sampleText) overshootContent (overshootReply, none) ([], none))
    sampleText { Choices := [sampleChoice overshootContent] } (sampleChoice overshootContent) []
    overshootReply rfl rfl rfl).1

/-- C2: when the model's reply decodes with an empty tier, the tier returned by
`analyzeText` depends on the score alone: high from 80, medium from 40, else
low, for the decoded score (negative and above 100 included) and equally for
the returned, clamped score. -/
theorem analyzeText_tier_derived (W : World) (text : GoString)
    (resp : ChatCompletionResponse) (choice : ChatCompletionChoice)
    (rest : List ChatCompletionChoice) (dec : RiskResult)
    (hcall : W.CreateChatCompletion (analyzeRequest text) = (resp, none))
    (hchoices : resp.Choices = choice :: rest)
    (hdec : W.jsonUnmarshal choice.Message.Content = (dec, none))
    (hlevel : dec.Level = []) :
    ∃ out tr, analyzeText W text = some (out, tr)
      ∧ out.Level = specTier dec.Risk ∧ out.Level = specTier out.Risk := by
  refine ⟨_, _, analyzeText_replied W text resp choice rest dec none hcall hchoices hdec, ?_⟩
  simp only [ne_eq, not_true_eq_false, if_false, specNormalize, hlevel, if_true, specTier,
    specClamp]
  constructor <;> (try split_ifs) <;> first | trivial | rfl | omega

/-- Witness of C2: a decoded score of 250 without a tier is returned as high. -/
theorem analyzeText_tier_derived_witness :
    ∃ out tr,
      analyzeText (scriptedWorld (textUpdate 42 sampleText) overshootContent
        (overshootReply, none) ([], none)) sampleText = some (out, tr)
      ∧ out.Level = specTier 250 ∧ out.Level = specTier out.Risk :=
  analyzeText_tier_derived
    (scriptedWorld (textUpdate 42 sampleText) overshootContent (overshootReply, none) ([], none))
    sampleText { Choices := [sampleChoice overshootContent] } (sampleChoice overshootContent) []
    overshootReply rfl rfl rfl rfl

/-- C3: when the upstream call returns an error or a response without candidates,
`analyzeText` returns, for every text and without a panic, the fixed assessment
with score 50, tier medium, one reason and the fixed recommendation. -/
theorem analyzeText_call_fallback (W : World) (text : GoString)
    (resp : ChatCompletionResponse) (err : Option GoError)
    (hcall : W.CreateChatCompletion (analyzeRequest text) = (resp, err))
    (hfail : err ≠ none ∨ resp.Choices = []) :
    ∃ tr, analyzeText W text
      = some ({ Risk := 50, Level := goStr "medium", Reasons := [goStr "Ошибка анализа"],
                Recommendation := goStr "Перепроверьте источник сообщения." }, tr) :=
  ⟨_, analyzeText_failed W text resp err hcall hfail⟩

/-- Witness of C3: the model call fails with an error. -/
theorem analyzeText_call_fallback_witness :
    ∃ tr, analyzeText (offlineWorld (textUpdate 42 sampleText)) sampleText
      = some ({ Risk := 50, Level := goStr "medium", Reasons := [goStr "Ошибка анализа"],
                Recommendation := goStr "Перепроверьте источник сообщения." }, tr) :=
  analyzeText_call_fallback (offlineWorld (textUpdate 42 sampleText)) sampleText
    { Choices := [] } (some (goStr "connection refused")) rfl (Or.inl (by decide))

/-- C4: when the first candidate's content fails to decode, `analyzeText` returns
exactly the second fixed assessment (score 60, tier medium, one reason, the fixed
recommendation), whatever was left in the partially decoded value, without a
panic; and this assessment differs from the one for a failed call. -/
theorem analyzeText_format_fallback (W : World) (text : GoString)
    (resp : ChatCompletionResponse) (choice : ChatCompletionChoice)
    (rest : List ChatCompletionChoice) (partialOut : RiskResult) (e : GoError)
    (hcall : W.CreateChatCompletion (analyzeRequest text) = (resp, none))
    (hchoices : resp.Choices = choice :: rest)
    (hdec : W.jsonUnmarshal choice.Message.Content = (partialOut, some e)) :
    (∃ tr, analyzeText W text
      = some ({ Risk := 60, Level := goStr "medium",
                Reasons := [goStr "Нестрогий формат ответа ИИ"],
                Recommendation := goStr "Будьте осторожны." }, tr))
      ∧ formatFallback ≠ callFallback := by
  refine ⟨⟨[Event.chatCompletion (analyzeRequest text)], ?_⟩, by decide⟩
  rw [analyzeText_replied W text resp choice rest partialOut (some e) hcall hchoices hdec]
  simp only [ne_eq, reduceCtorEq, not_false_eq_true, if_true, specNormalize_formatFallback]
  rfl

/-- Witness of C4: the reply is empty, decoding fails and leaves a partly filled value. -/
theorem analyzeText_format_fallback_witness :
    (∃ tr, analyzeText (scriptedWorld (textUpdate 42 sampleText) []
        (criticalReply, some (goStr "unexpected end of JSON input")) ([], none)) sampleText
      = some ({ Risk := 60, Level := goStr "medium",
                Reasons := [goStr "Нестрогий формат ответа ИИ"],
                Recommendation := goStr "Будьте осторожны." }, tr))
      ∧ formatFallback ≠ callFallback :=
  analyzeText_format_fallback
    (scriptedWorld (textUpdate 42 sampleText) []
      (criticalReply, some (goStr "unexpected end of JSON input")) ([], none))
    sampleText { Choices := [sampleChoice []] } (sampleChoice []) [] criticalReply
    (goStr "unexpected end of JSON input") rfl rfl rfl

/-- Counterexample to C5 as stated: the model replies with the tier `critical`;
the reply decodes, and `analyzeText` returns that tier, which is none of the
three levels. -/
theorem analyzeText_tier_unchecked :
    (analyzeText (scriptedWorld (textUpdate 42 sampleText) criticalContent
        (criticalReply, none) ([], none)) sampleText).map (fun p => p.1.Level)
      = some (goStr "critical")
    ∧ goStr "critical" ∉ specTiers := by
  decide

/-- C5, amended: for every outcome of the upstream call `analyzeText` returns a
tier that is one of low, medium, high, or else is the non-empty tier decoded
from the model's reply, returned unchanged. -/
theorem analyzeText_tier_range (W : World) (text : GoString) :
    ∃ out tr, analyzeText W text = some (out, tr)
      ∧ (out.Level ∈ specTiers
          ∨ ∃ resp choice rest dec,
              W.CreateChatCompletion (analyzeRequest text) = (resp, none)
              ∧ resp.Choices = choice :: rest
              ∧ W.jsonUnmarshal choice.Message.Content = (dec, none)
              ∧ dec.Level ≠ [] ∧ out.Level = dec.Level) := by
  obtain ⟨out, hout, hcases⟩ := analyzeText_total W text
  refine ⟨out, _, hout, ?_⟩
  rcases hcases with h | h | ⟨resp, choice, rest, dec, hcall, hch, hdec, h⟩
  · subst h; exact Or.inl (by decide)
  · subst h; exact Or.inl (by decide)
  · subst h
    by_cases hl : dec.Level = []
    · left
      simp only [specNormalize, hl, if_true, specTier, specTiers]
      split_ifs <;> simp
    · right
      exact ⟨resp, choice, rest, dec, hcall, hch, hdec, hl, by simp [specNormalize, hl]⟩

/-! ## The claims about the handler -/

/-- C6: for an update with a voice reference and no text, when `transcribeVoice`
returns an error or a text that is empty after trimming, the handler answers 200
and its only outbound message is the fixed apology to the originating chat; it
does not call the risk analysis. -/
theorem webhook_voice_apology (W : World) (tgToken body : GoString) (upd : TGUpdate)
    (m : TGMessage) (voice : TGVoice) (text : GoString) (verr : Option GoError)
    (t0 : List Event)
    (hparse : W.BodyParser body = (upd, none)) (hmsg : upd.Message = some m)
    (htext : m.Text = []) (hvoice : m.Voice = some voice)
    (htr : transcribeVoice W tgToken voice.FileID = some ((text, verr), t0))
    (hfail : verr ≠ none ∨ W.TrimSpace text = []) :
    ∃ tr, webhook W tgToken body = some (200, tr)
      ∧ tr.filter Event.isPost
          = [Event.httpPost (goStr "https://api.telegram.org/bot" ++ tgToken ++ goStr "/sendMessage")
              (goStr "application/json")
              [(goStr "chat_id", formatInt m.Chat.ID),
               (goStr "text",
                 goStr "Не удалось распознать голосовое. Пришлите текст или другое аудио."),
               (goStr "parse_mode", goStr "Markdown")]]
      ∧ ∀ e ∈ tr, e.isChatCompletion = false := by
  obtain ⟨res, t0', htr', hquiet⟩ := transcribeVoice_total W tgToken voice.FileID
  rw [htr] at htr'
  obtain ⟨-, rfl⟩ : ((text, verr) = res) ∧ t0 = t0' := by
    simpa using htr'
  refine ⟨t0 ++ [outboundMessage tgToken m.Chat.ID voiceApology], ?_, ?_, ?_⟩
  · rw [webhook_voiceBranch W tgToken body upd m voice hparse hmsg htext hvoice, htr,
      Option.some_bind, if_pos hfail]
  · rw [List.filter_append]
    have h0 : t0.filter Event.isPost = [] := by
      rw [List.filter_eq_nil_iff]
      intro e he
      simp [(hquiet e he).1]
    rw [h0]
    rfl
  · intro e he
    rcases List.mem_append.mp he with h | h
    · exact (hquiet e h).2
    · rw [List.mem_singleton] at h
      subst h
      rfl

/-- Witness of C6: the transcription succeeds but consists of blanks only. -/
theorem webhook_voice_apology_witness :
    ∃ tr, webhook (scriptedWorld (voiceUpdate 42 (goStr "AwACAgIAAxkBAAIB")) []
        (zeroRiskResult, none) (goStr " \n ", none)) (goStr "123:abc") [] = some (200, tr)
      ∧ tr.filter Event.isPost
          = [Event.httpPost (goStr "https://api.telegram.org/bot" ++ goStr "123:abc"
                ++ goStr "/sendMessage")
              (goStr "application/json")
              [(goStr "chat_id", formatInt 42),
               (goStr "text",
                 goStr "Не удалось распознать голосовое. Пришлите текст или другое аудио."),
               (goStr "parse_mode", goStr "Markdown")]]
      ∧ ∀ e ∈ tr, e.isChatCompletion = false :=
  webhook_voice_apology
    (scriptedWorld (voiceUpdate 42 (goStr "AwACAgIAAxkBAAIB")) [] (zeroRiskResult, none)
      (goStr " \n ", none))
    (goStr "123:abc") [] (voiceUpdate 42 (goStr "AwACAgIAAxkBAAIB"))
    { MessageID := 1, Text := [], Chat := { ID := 42 },
      Voice := some { FileID := goStr "AwACAgIAAxkBAAIB" } }
    { FileID := goStr "AwACAgIAAxkBAAIB" } [] none _ rfl rfl rfl rfl (by rfl) (Or.inr (by decide))

/-- C7: for every request body and every outcome of the external calls the
handler does not panic and answers with HTTP status 200. -/
theorem webhook_always_200 (W : World) (tgToken body : GoString) :
    ∃ tr, webhook W tgToken body = some (200, tr) := by
  rcases hparse : W.BodyParser body with ⟨upd, err⟩
  cases err with
  | some e => exact ⟨[], by simp [webhook, hparse]⟩
  | none =>
    rcases hmsg : upd.Message with _ | m
    · exact ⟨[], by simp [webhook, hparse, hmsg]⟩
    · by_cases htext : m.Text = []
      · rcases hvoice : m.Voice with _ | voice
        · unfold webhook
          simp only [hparse, hmsg, htext, hvoice]
          simp only [ne_eq, not_true_eq_false, if_false, sendTG_eq, Option.bind_eq_bind,
            Option.some_bind, Option.pure_def]
          exact ⟨_, rfl⟩
        · rw [webhook_voiceBranch W tgToken body upd m voice hparse hmsg htext hvoice]
          obtain ⟨res, t0, htr, -⟩ := transcribeVoice_total W tgToken voice.FileID
          obtain ⟨out, hout, -⟩ := analyzeText_total W res.1
          rw [htr, Option.some_bind]
          split_ifs
          · exact ⟨_, rfl⟩
          · simp only [hout, sendResultToTG_eq, Option.some_bind]
            exact ⟨_, rfl⟩
      · obtain ⟨out, hout, -⟩ := analyzeText_total W m.Text
        unfold webhook
        simp only [hparse, hmsg]
        simp only [ne_eq, not_true_eq_false, if_false, htext, not_false_eq_true, if_true, hout,
          sendResultToTG_eq, Option.bind_eq_bind, Option.some_bind, Option.pure_def]
        exact ⟨_, rfl⟩

/-! ## The claims about the reply -/

set_option maxRecDepth 100000 in
/-- Counterexample to C8 as stated: for the call-failure assessment, whose tier is
`medium`, the message shows the tier as `MEDIUM`; it is not the template filled
with the tier itself, and the tier label is nowhere followed by `medium`. -/
theorem sendResultToTG_msg_tier_not_verbatim :
    sendResultToTG_msg (fun s => s) (goStr "Срочно!") callFallback
      = some (goStr "🛡️ *FraudGuard AI*\n\n*Оригинал:*\n`Срочно!`\n\n*Риск:* 50% │█████░░░░░│\n*Уровень:* MEDIUM\n*Причины:*\n- Ошибка анализа\n\n*Совет:* Перепроверьте источник сообщения.")
    ∧ sendResultToTG_msg (fun s => s) (goStr "Срочно!") callFallback
      ≠ some (specTemplate (goStr "Срочно!") callFallback callFallback.Level)
    ∧ ¬ (goStr "*Уровень:* " ++ callFallback.Level) <:+:
        goStr "🛡️ *FraudGuard AI*\n\n*Оригинал:*\n`Срочно!`\n\n*Риск:* 50% │█████░░░░░│\n*Уровень:* MEDIUM\n*Причины:*\n- Ошибка анализа\n\n*Совет:* Перепроверьте источник сообщения." := by
  decide

/-- C8, amended: the message built by `sendResultToTG` is the fixed template filled
with the original truncated to 800 bytes, the score in decimal, the bar of the
score, the tier in upper case, the reasons block and the recommendation; it is
the text of the one message sent to the chat; and the three tiers appear as
`LOW`, `MEDIUM`, `HIGH`. -/
theorem sendResultToTG_template (W : World) (tgToken : GoString) (chatID : Int)
    (original : GoString) (r : RiskResult) :
    sendResultToTG_msg W.unicodeUpper original r
      = some (goStr "🛡️ *FraudGuard AI*\n\n*Оригинал:*\n`" ++ specTruncate original 800
          ++ goStr "`\n\n*Риск:* " ++ formatInt r.Risk ++ goStr "% "
          ++ goStr (String.mk (specBar (specFilledCells r.Risk)))
          ++ goStr "\n*Уровень:* " ++ stringsToUpper W.unicodeUpper r.Level
          ++ goStr "\n*Причины:*\n" ++ specReasons r.Reasons
          ++ goStr "\n\n*Совет:* " ++ r.Recommendation)
    ∧ (∃ msg, sendResultToTG_msg W.unicodeUpper original r = some msg
        ∧ sendResultToTG W tgToken chatID original r
            = some [Event.httpPost
                (goStr "https://api.telegram.org/bot" ++ tgToken ++ goStr "/sendMessage")
                (goStr "application/json")
                [(goStr "chat_id", formatInt chatID), (goStr "text", msg),
                 (goStr "parse_mode", goStr "Markdown")]])
    ∧ stringsToUpper W.unicodeUpper (goStr "low") = goStr "LOW"
    ∧ stringsToUpper W.unicodeUpper (goStr "medium") = goStr "MEDIUM"
    ∧ stringsToUpper W.unicodeUpper (goStr "high") = goStr "HIGH" := by
  refine ⟨sendResultToTG_msg_eq _ _ _, ⟨_, sendResultToTG_msg_eq _ _ _, ?_⟩, ?_, ?_, ?_⟩
  · exact sendResultToTG_eq W tgToken chatID original r
  · rfl
  · rfl
  · rfl

/-- C9: for every integer `r`, `riskBar r` does not panic and is the delimiter, `k`
filled cells, `10 - k` empty cells and the delimiter, with
`k = floor(clamp(r, 0, 100) / 10)`: 12 characters, 10 cells; both counts passed to
`strings.Repeat` are non-negative; and `k` is non-decreasing in `r`. -/
theorem riskBar_shape (r : Int) :
    riskBar r = some (goStr (String.mk
        ('│' :: (List.replicate (specFilledCells r) '█'
          ++ List.replicate (10 - specFilledCells r) '░' ++ ['│']))))
    ∧ specFilledCells r ≤ 10
    ∧ (specBar (specFilledCells r)).length = 12
    ∧ (List.replicate (specFilledCells r) '█'
        ++ List.replicate (10 - specFilledCells r) '░').length = 10
    ∧ riskBarBlocks r = (specFilledCells r : Int)
    ∧ 0 ≤ riskBarBlocks r ∧ 0 ≤ 10 - riskBarBlocks r
    ∧ stringsRepeat (goStr "█") (riskBarBlocks r) ≠ none
    ∧ stringsRepeat (goStr "░") (10 - riskBarBlocks r) ≠ none
    ∧ ∀ r' : Int, r ≤ r' → specFilledCells r ≤ specFilledCells r' := by
  have hb := riskBarBlocks_eq r
  refine ⟨riskBar_eq r, hb.2, specBar_length _ hb.2, ?_, hb.1, ?_, ?_, ?_, ?_, ?_⟩
  · simp only [List.length_append, List.length_replicate]
    omega
  · omega
  · omega
  · have : ¬ riskBarBlocks r < 0 := by omega
    simp [stringsRepeat, this]
  · have : ¬ 10 - riskBarBlocks r < 0 := by omega
    simp [stringsRepeat, this]
  · intro r' h
    exact specFilledCells_mono h

/-- Witness of C9: the bar of 37 has three filled cells, and the bar of a negative
score has no more filled cells than it. -/
theorem riskBar_shape_witness :
    riskBar 37 = some (goStr "│███░░░░░░░│") ∧ specFilledCells (-5) ≤ specFilledCells 37 := by
  obtain ⟨-, -, -, -, -, -, -, -, -, hmono⟩ := riskBar_shape (-5)
  exact ⟨(riskBar_shape 37).1.trans (by decide), hmono 37 (by decide)⟩

/-- C10: for `n ≥ 0`, `truncate s n` does not panic; it is `s` when `len(s) ≤ n` and
otherwise the first `n` bytes of `s` followed by the 3-byte ellipsis.  Hence the
original echoed between the backticks of the message of `sendResultToTG` has at
most 803 bytes and is the original itself when that has at most 800 bytes. -/
theorem truncate_safe (s : GoString) (n : Int) (hn : 0 ≤ n) :
    truncate s n = some (if s.length ≤ n.toNat then s else s.take n.toNat ++ goStr "…")
    ∧ (goStr "…").length = 3
    ∧ ∀ (up : GoString → GoString) (original : GoString) (r : RiskResult),
        ∃ shown rest, truncate original 800 = some shown
          ∧ sendResultToTG_msg up original r
              = some (goStr "🛡️ *FraudGuard AI*\n\n*Оригинал:*\n`" ++ shown ++ goStr "`" ++ rest)
          ∧ shown.length ≤ 803
          ∧ (original.length ≤ 800 → shown = original) := by
  refine ⟨truncate_eq s n hn, by decide, ?_⟩
  intro up original r
  have hq : goStr "`\n\n*Риск:* " = goStr "`" ++ goStr "\n\n*Риск:* " := by decide
  refine ⟨specTruncate original 800,
    goStr "\n\n*Риск:* " ++ formatInt r.Risk ++ goStr "% "
      ++ goStr (String.mk (specBar (specFilledCells r.Risk)))
      ++ goStr "\n*Уровень:* " ++ stringsToUpper up r.Level
      ++ goStr "\n*Причины:*\n" ++ specReasons r.Reasons
      ++ goStr "\n\n*Совет:* " ++ r.Recommendation,
    truncate_eq original 800 (by decide), ?_, specTruncate_length original 800, ?_⟩
  · rw [sendResultToTG_msg_eq, specTemplate, hq]
    simp only [List.append_assoc]
  · intro h
    simp [specTruncate, h]

/-- Witness of C10: a cut in the middle of a two-byte character. -/
theorem truncate_safe_witness :
    truncate (goStr "Срочно!") 5 = some [0xd0, 0xa1, 0xd1, 0x80, 0xd0, 0xe2, 0x80, 0xa6] :=
  (truncate_safe (goStr "Срочно!") 5 (by decide)).1.trans (by decide)

end FraudGuard
